import Mathlib

/-!
A shallow embedding of the LangGraph checkpoint-memory chat client
(`src/app.py`) and proofs about its two rendering functions
(`process_chunks`, `process_checkpoints`) and its console loop.

Modelling conventions:
* Console output is modelled as a list of structured `Line` values, one per
  `rich.print` call; `Line.render` reproduces the exact text printed.
* A Python dictionary key that may be absent is modelled as an `Option`
  field (`none` = key absent), matching the `in` / `.get` tests of the source.
* The Python builtin `eval` applied to the serialized tool-argument payload
  is external to the repository; it is modelled as an oracle
  `evalFn : PyEval` that either returns the mapping the payload denotes or
  the exception `eval` raises.  An uncaught Python exception is modelled as
  the `Option String` error component threaded through `process_chunks`:
  lines emitted before the exception are kept, and a `some e` second
  component means the exception `e` propagates out of the function
  (the source has no try/except).
-/

/-- One console line, tagged by which `rich.print` call of `src/app.py`
produced it, carrying the interpolated data. -/
inductive Line where
  /-- app.py line 71-74: the tool-call notice printed by `process_chunks`. -/
  | toolCallNotice (tool_name tool_query : String)
  /-- app.py line 82: the final-answer print of `process_chunks`. -/
  | agentAnswer (content : String)
  /-- app.py line 136: the farewell printed when the user quits. -/
  | farewell
  /-- app.py line 101: the opening separator of `process_checkpoints`. -/
  | separatorTop
  /-- app.py line 126: the closing separator of `process_checkpoints`. -/
  | separatorBottom
  /-- app.py line 109: the `Checkpoint:` section header. -/
  | checkpointHeader
  /-- app.py line 110: the checkpoint timestamp line. -/
  | timestamp (ts : String)
  /-- app.py line 111: the checkpoint identifier line. -/
  | checkpointId (id : String)
  /-- app.py line 116-118: a `User:` message line. -/
  | userMsg (content id : String)
  /-- app.py line 120-122: an `Agent:` message line. -/
  | agentMsg (content id : String)
  /-- app.py line 124: the blank line after each checkpoint. -/
  | blank
  deriving Repr, DecidableEq

/-- The 58-character rule of equals signs (codepoint 61) that app.py
lines 101 and 126 print around the checkpoint dump. -/
def separatorRule : String := String.mk (List.replicate 58 (Char.ofNat 61))

/-- The exact text of each `rich.print` call (rich markup kept verbatim;
`\x27` is the ASCII apostrophe). -/
def Line.render : Line → String
  | .toolCallNotice tool_name tool_query =>
      "\nThe agent is calling the tool [on deep_sky_blue1]" ++ tool_name ++
      "[/on deep_sky_blue1] with the query [on deep_sky_blue1]" ++ tool_query ++
      "[/on deep_sky_blue1]. Please wait for the agent\x27s answer[deep_sky_blue1]...[/deep_sky_blue1]"
  | .agentAnswer content => "\nAgent:\n" ++ content
  | .farewell => "\nAgent:\nHave a nice day! :wave:\n"
  | .separatorTop => "\n" ++ separatorRule ++ "\n"
  | .separatorBottom => separatorRule
  | .checkpointHeader => "[white]Checkpoint:[/white]"
  | .timestamp ts => "[black]Timestamp: " ++ ts ++ "[/black]"
  | .checkpointId id => "[black]Checkpoint ID: " ++ id ++ "[/black]"
  | .userMsg content id =>
      "[bright_magenta]User: " ++ content ++ "[/bright_magenta] [bright_cyan](Message ID: " ++
      id ++ ")[/bright_cyan]"
  | .agentMsg content id =>
      "[bright_magenta]Agent: " ++ content ++ "[/bright_magenta] [bright_cyan](Message ID: " ++
      id ++ ")[/bright_cyan]"
  | .blank => ""

/-- The mapping a well-formed serialized tool-argument payload denotes
(string keys to string values, as produced by the model for the search
tool: `\x7b"query": "..."\x7d`). -/
abbrev PyDict := List (String × String)

/-- Oracle for the Python builtin `eval` on an arguments string:
`.ok d` models `eval` returning the mapping `d`; `.error e` models `eval`
raising the exception `e` (malformed payload), or the evaluation result
being unusable as a mapping. -/
abbrev PyEval := String → Except String PyDict

/-- The `function` member of a tool-call entry: the tool name and the
serialized argument payload (`tool_call["function"]["name"]` /
`tool_call["function"]["arguments"]` in app.py lines 64-67). -/
structure ToolFunction where
  name : String
  arguments : String
  deriving Repr, DecidableEq

/-- One entry of the `tool_calls` list carried by a message. -/
structure ToolCall where
  function : ToolFunction
  deriving Repr, DecidableEq

/-- The `additional_kwargs` mapping of a streamed message; only the
`tool_calls` key is ever read.  `none` models the key being absent
(the `"tool_calls" in message.additional_kwargs` test, app.py line 55). -/
structure AdditionalKwargs where
  tool_calls : Option (List ToolCall)
  deriving Repr, DecidableEq

/-- A message carried by a stream chunk: its `additional_kwargs` and its
text `content` (app.py lines 55 and 79). -/
structure ChunkMessage where
  additional_kwargs : AdditionalKwargs
  content : String
  deriving Repr, DecidableEq

/-- The value under a stage key of a chunk: the list of messages produced
at that stage (`chunk["agent"]["messages"]`, app.py line 53). -/
structure StageUpdate where
  messages : List ChunkMessage
  deriving Repr, DecidableEq

/-- One stream chunk: a mapping from producer stage to messages.  The agent
runtime emits chunks keyed `"agent"` or `"tools"`; `none` models the key
being absent (the `"agent" in chunk` test, app.py line 51). -/
structure Chunk where
  agent : Option StageUpdate
  tools : Option StageUpdate
  deriving Repr, DecidableEq

/-- Embedding of `tool_arguments["query"]` (app.py line 68): a Python subscript lookup,
raising `KeyError` when the key is absent. -/
def lookupQuery (tool_arguments : PyDict) : Except String String :=
  match tool_arguments.lookup "query" with
  | some q => Except.ok q
  | none => Except.error "KeyError: query"

/-- The query the source extracts from one tool-call entry:
`eval(tool_call["function"]["arguments"])["query"]` (app.py lines 67-68). -/
def extractedQuery (evalFn : PyEval) (tool_call : ToolCall) : Except String String :=
  match evalFn tool_call.function.arguments with
  | Except.ok tool_arguments => lookupQuery tool_arguments
  | Except.error e => Except.error e

/-- The inner loop of `process_chunks` over the `tool_calls` list
(app.py lines 62-74): each entry yields one tool-call notice; an exception
while extracting stops the loop and propagates, keeping the lines already
printed. -/
def process_tool_calls (evalFn : PyEval) : List ToolCall → List Line × Option String
  | [] => ([], none)
  | tool_call :: rest =>
    match extractedQuery evalFn tool_call with
    | Except.error e => ([], some e)
    | Except.ok tool_query =>
      let line := Line.toolCallNotice tool_call.function.name tool_query
      let (ls, err) := process_tool_calls evalFn rest
      (line :: ls, err)

/-- The per-message branch of `process_chunks` (app.py lines 55-82): if the
`tool_calls` key is present, render each entry; otherwise print the
message content as the agent answer. -/
def process_message (evalFn : PyEval) (message : ChunkMessage) : List Line × Option String :=
  match message.additional_kwargs.tool_calls with
  | some tool_calls => process_tool_calls evalFn tool_calls
  | none => ([Line.agentAnswer message.content], none)

/-- The loop of `process_chunks` over `chunk["agent"]["messages"]`
(app.py line 53), threading a possible uncaught exception. -/
def process_messages (evalFn : PyEval) : List ChunkMessage → List Line × Option String
  | [] => ([], none)
  | message :: rest =>
    let (ls, err) := process_message evalFn message
    match err with
    | some e => (ls, some e)
    | none =>
      let (ls2, err2) := process_messages evalFn rest
      (ls ++ ls2, err2)

/-- Embedding of `process_chunks` (app.py lines 31-82): inspect the chunk only when it
carries the `"agent"` stage; the result is the printed lines plus the
exception that escapes the function, if any. -/
def process_chunks (evalFn : PyEval) (chunk : Chunk) : List Line × Option String :=
  match chunk.agent with
  | some a => process_messages evalFn a.messages
  | none => ([], none)

/-- A LangChain message stored in a checkpoint, by concrete class
(the `isinstance` dispatch of app.py lines 115-122): `HumanMessage`,
`AIMessage`, or one of the other message classes (`ToolMessage`,
`SystemMessage`); each carries its text content and identifier. -/
inductive BaseMessage where
  | human (content id : String)
  | ai (content id : String)
  | toolMsg (content id : String)
  | systemMsg (content id : String)
  deriving Repr, DecidableEq

/-- The `channel_values` mapping of a checkpoint; only the `messages` key
is read, with `.get("messages", [])` (app.py line 106), so the key may be
absent (`none`). -/
structure ChannelValues where
  messages : Option (List BaseMessage)
  deriving Repr, DecidableEq

/-- A checkpoint as read by `process_checkpoints`: its `channel_values`,
timestamp `ts` and `id` (app.py lines 106-111). -/
structure Checkpoint where
  channel_values : ChannelValues
  ts : String
  id : String
  deriving Repr, DecidableEq

/-- A checkpoint tuple as returned by `memory.list`; only its
`.checkpoint` member is read (app.py line 105). -/
structure CheckpointTuple where
  checkpoint : Checkpoint
  deriving Repr, DecidableEq

/-- The message loop body of `process_checkpoints` (app.py lines 114-122):
a `HumanMessage` prints one `User:` line, an `AIMessage` one `Agent:`
line, and any other class prints nothing. -/
def render_message (message : BaseMessage) : List Line :=
  match message with
  | BaseMessage.human content id => [Line.userMsg content id]
  | BaseMessage.ai content id => [Line.agentMsg content id]
  | BaseMessage.toolMsg _ _ => []
  | BaseMessage.systemMsg _ _ => []

/-- One iteration of the checkpoint loop (app.py lines 103-124): header,
timestamp, identifier, then the message lines, then a blank line.  The
message list defaults to `[]` when the `messages` key is absent. -/
def render_checkpoint (checkpoint_tuple : CheckpointTuple) : List Line :=
  let checkpoint := checkpoint_tuple.checkpoint
  let messages := checkpoint.channel_values.messages.getD []
  [Line.checkpointHeader, Line.timestamp checkpoint.ts, Line.checkpointId checkpoint.id]
    ++ (messages.map render_message).flatten ++ [Line.blank]

/-- Embedding of `process_checkpoints` (app.py lines 86-126): opening separator, each
checkpoint in the order given, closing separator. -/
def process_checkpoints (checkpoints : List CheckpointTuple) : List Line :=
  Line.separatorTop :: (checkpoints.map render_checkpoint).flatten ++ [Line.separatorBottom]

/-- The renderer `process_checkpoints` viewed as a state-passing step: the source only
reads checkpoint fields and prints, so the checkpoint data it leaves
behind is its input unchanged (no assignment mutates `checkpoints` or any
message in app.py lines 86-126). -/
def process_checkpoints_run (checkpoints : List CheckpointTuple) :
    List Line × List CheckpointTuple :=
  (process_checkpoints checkpoints, checkpoints)

/-- ASCII case lowering of one character, the behaviour of the Python
`str.lower` call of app.py line 135 on ASCII input. -/
def asciiLower (c : Char) : Char :=
  if 65 ≤ c.toNat ∧ c.toNat ≤ 90 then Char.ofNat (c.toNat + 32) else c

/-- Embedding of `user_question.lower()` (app.py line 135), ASCII scope. -/
def pyLower (s : String) : String :=
  String.mk (s.data.map asciiLower)

/-- The console loop of app.py lines 130-150, run on a finite list of user
inputs.  Each `turn` argument stands for one full Processing pass (the
agent invocation with its stream rendering and checkpoint dumps); the
first component of the result lists the inputs actually handed to the
agent runtime, the second the printed lines.  The `break` on the quit
sentinel returns with the farewell printed, no agent invocation for that
input, and the remaining inputs unread (the process then exits normally). -/
def console_loop (turn : String → List Line) : List String → List String × List Line
  | [] => ([], [])
  | user_question :: rest =>
    if pyLower user_question = "quit" then
      ([], [Line.farewell])
    else
      let (qs, out) := console_loop turn rest
      (user_question :: qs, turn user_question ++ out)

/-! Helper views used to state the claims. -/

/-- View of a line as a timestamp header line. -/
def tsOf : Line → Option String
  | Line.timestamp ts => some ts
  | _ => none

/-- View of a line as a checkpoint-identifier header line. -/
def idOf : Line → Option String
  | Line.checkpointId i => some i
  | _ => none

/-- Whether a line is the `Checkpoint:` section header. -/
def isCheckpointHeader : Line → Bool
  | Line.checkpointHeader => true
  | _ => false

/-- Whether a line is a tool-call notice. -/
def isToolCallNotice : Line → Bool
  | Line.toolCallNotice _ _ => true
  | _ => false

/-- Whether a line is a final-answer line. -/
def isAgentAnswer : Line → Bool
  | Line.agentAnswer _ => true
  | _ => false

/-- The line the specification says one checkpoint message produces: one
`User:` line for a user message, one `Agent:` line for an assistant
message, and nothing for any other role. -/
def claimedMsgLine : BaseMessage → Option Line
  | BaseMessage.human content id => some (Line.userMsg content id)
  | BaseMessage.ai content id => some (Line.agentMsg content id)
  | BaseMessage.toolMsg _ _ => none
  | BaseMessage.systemMsg _ _ => none

/-- The notice line C2 predicts for one tool-call entry. -/
def noticeOf (evalFn : PyEval) (tool_call : ToolCall) : Line :=
  Line.toolCallNotice tool_call.function.name
    ((extractedQuery evalFn tool_call).toOption.getD "")

/-- Oracle recording that the Python `eval` of the payloads at hand raises
(for instance `eval` applied to the truncated payload `"\x7b"` raises
`SyntaxError: unexpected EOF while parsing`). -/
def badPayloadEval : PyEval := fun _ => Except.error "SyntaxError: unexpected EOF while parsing"

/-- The message carried by one agent-stage chunk, from its `tool_calls`
entry (absent, or a list) and its text content. -/
def mkMessage (tool_calls : Option (List ToolCall)) (content : String) : ChunkMessage :=
  { additional_kwargs := { tool_calls := tool_calls }, content := content }

/-- A stream chunk whose `"agent"` stage carries a single message, next to
whatever `"tools"` stage data the runtime put in the chunk. -/
def agentChunk (message : ChunkMessage) (tools : Option StageUpdate) : Chunk :=
  { agent := some { messages := [message] }, tools := tools }

/-- A checkpoint tuple built from the three fields `process_checkpoints`
reads: the optional `messages` entry, the timestamp, the identifier. -/
def mkCheckpointTuple (messages : Option (List BaseMessage)) (cts cid : String) :
    CheckpointTuple :=
  { checkpoint := { channel_values := { messages := messages }, ts := cts, id := cid } }

/-- A tool-call entry with the malformed (truncated) payload `"\x7b"`. -/
def badPayloadCall : ToolCall :=
  { function := { name := "tavily_search_results_json", arguments := "\x7b" } }

/-- A stream chunk whose agent message carries the malformed entry. -/
def badPayloadChunk : Chunk :=
  agentChunk (mkMessage (some [badPayloadCall]) "") none

/-- Oracle for the run where every payload is the well-formed
`\x7b"query": "weather in Paris"\x7d`. -/
def demoEval : PyEval := fun _ => Except.ok [("query", "weather in Paris")]

/-- A well-formed tool-call entry for the search tool. -/
def demoCall : ToolCall :=
  { function := { name := "tavily_search_results_json", arguments := "\x7b\"query\": \"weather in Paris\"\x7d" } }

/-- Two well-formed tool-call entries. -/
def demoToolCalls : List ToolCall := [demoCall, demoCall]

/-! Helper lemmas shared by the claims. -/

/-- When query extraction succeeds for every entry, the tool-call loop of
`process_chunks` prints exactly one notice per entry, in order, and no
exception escapes. -/
theorem process_tool_calls_all_ok (evalFn : PyEval) (tcs : List ToolCall)
    (hok : ∀ tc ∈ tcs, (extractedQuery evalFn tc).isOk = true) :
    process_tool_calls evalFn tcs = (tcs.map (noticeOf evalFn), none) := by
  induction tcs with
  | nil => rfl
  | cons tc rest ih =>
    obtain ⟨q, hq⟩ : ∃ q, extractedQuery evalFn tc = Except.ok q := by
      have h1 := hok tc (List.mem_cons_self tc rest)
      cases h : extractedQuery evalFn tc with
      | ok q => exact ⟨q, rfl⟩
      | error e => rw [h] at h1; simp [Except.isOk, Except.toBool] at h1
    have ih2 := ih (fun tc h => hok tc (List.mem_cons_of_mem _ h))
    simp [process_tool_calls, hq, ih2, noticeOf, Except.toOption]

/-- The message section contributes no timestamp line. -/
theorem msgSection_tsOf (ms : List BaseMessage) :
    ((ms.map render_message).flatten).filterMap tsOf = [] := by
  induction ms with
  | nil => rfl
  | cons m ms ih => cases m <;> simp [render_message, tsOf, ih]

/-- The message section contributes no checkpoint-identifier line. -/
theorem msgSection_idOf (ms : List BaseMessage) :
    ((ms.map render_message).flatten).filterMap idOf = [] := by
  induction ms with
  | nil => rfl
  | cons m ms ih => cases m <;> simp [render_message, idOf, ih]

/-- The message section contains no section header. -/
theorem msgSection_countP_header (ms : List BaseMessage) :
    ((ms.map render_message).flatten).countP isCheckpointHeader = 0 := by
  induction ms with
  | nil => rfl
  | cons m ms ih => cases m <;> simp [render_message, isCheckpointHeader, ih]

/-- One rendered checkpoint carries exactly its own timestamp line. -/
theorem render_checkpoint_tsOf (ct : CheckpointTuple) :
    (render_checkpoint ct).filterMap tsOf = [ct.checkpoint.ts] := by
  show List.filterMap tsOf
      ([Line.checkpointHeader, Line.timestamp ct.checkpoint.ts,
        Line.checkpointId ct.checkpoint.id]
        ++ ((ct.checkpoint.channel_values.messages.getD []).map render_message).flatten
        ++ [Line.blank]) = [ct.checkpoint.ts]
  rw [List.filterMap_append, List.filterMap_append, msgSection_tsOf]
  rfl

/-- One rendered checkpoint carries exactly its own identifier line. -/
theorem render_checkpoint_idOf (ct : CheckpointTuple) :
    (render_checkpoint ct).filterMap idOf = [ct.checkpoint.id] := by
  show List.filterMap idOf
      ([Line.checkpointHeader, Line.timestamp ct.checkpoint.ts,
        Line.checkpointId ct.checkpoint.id]
        ++ ((ct.checkpoint.channel_values.messages.getD []).map render_message).flatten
        ++ [Line.blank]) = [ct.checkpoint.id]
  rw [List.filterMap_append, List.filterMap_append, msgSection_idOf]
  rfl

/-- One rendered checkpoint carries exactly one section header. -/
theorem render_checkpoint_countP_header (ct : CheckpointTuple) :
    (render_checkpoint ct).countP isCheckpointHeader = 1 := by
  show List.countP isCheckpointHeader
      ([Line.checkpointHeader, Line.timestamp ct.checkpoint.ts,
        Line.checkpointId ct.checkpoint.id]
        ++ ((ct.checkpoint.channel_values.messages.getD []).map render_message).flatten
        ++ [Line.blank]) = 1
  rw [List.countP_append, List.countP_append, msgSection_countP_header]
  rfl

/-- Chain form of `render_checkpoint_tsOf` over a checkpoint list. -/
theorem flatten_render_tsOf (cps : List CheckpointTuple) :
    ((cps.map render_checkpoint).flatten).filterMap tsOf
      = cps.map (fun ct => ct.checkpoint.ts) := by
  induction cps with
  | nil => rfl
  | cons ct cps ih =>
    rw [List.map_cons, List.flatten_cons, List.filterMap_append, ih, render_checkpoint_tsOf,
      List.map_cons, List.singleton_append]

/-- Chain form of `render_checkpoint_idOf` over a checkpoint list. -/
theorem flatten_render_idOf (cps : List CheckpointTuple) :
    ((cps.map render_checkpoint).flatten).filterMap idOf
      = cps.map (fun ct => ct.checkpoint.id) := by
  induction cps with
  | nil => rfl
  | cons ct cps ih =>
    rw [List.map_cons, List.flatten_cons, List.filterMap_append, ih, render_checkpoint_idOf,
      List.map_cons, List.singleton_append]

/-- Chain form of `render_checkpoint_countP_header`: one header each. -/
theorem flatten_render_countP_header (cps : List CheckpointTuple) :
    ((cps.map render_checkpoint).flatten).countP isCheckpointHeader = cps.length := by
  induction cps with
  | nil => rfl
  | cons ct cps ih =>
    rw [List.map_cons, List.flatten_cons, List.countP_append, ih,
      render_checkpoint_countP_header, List.length_cons]
    omega

/-- The message section of a rendered checkpoint is exactly the lines the
specification assigns per role. -/
theorem msgSection_eq_claimed (ms : List BaseMessage) :
    (ms.map render_message).flatten = ms.filterMap claimedMsgLine := by
  induction ms with
  | nil => rfl
  | cons m ms ih => cases m <;> simp [render_message, claimedMsgLine, ih]

/-! The claims. -/

/-- C1: the specification requires a malformed tool-argument payload to be
a reportable, non-fatal error with a clear message.  The code instead lets
the exception raised by `eval` propagate out of `process_chunks` uncaught:
on the malformed payload `"\x7b"` the function prints nothing and the
`SyntaxError` escapes, terminating the process. -/
theorem malformed_payload_uncontrolled_crash :
    process_chunks badPayloadEval badPayloadChunk
      = ([], some "SyntaxError: unexpected EOF while parsing") := rfl

/-- C2: a chunk whose agent message carries the tool-call entries `tcs`
(at least one, every payload extractable) renders exactly one notice per
entry, in order, the i-th naming the tool name and extracted query of the
i-th entry, with zero final-answer lines. -/
theorem tool_calls_render_notices (evalFn : PyEval) (content : String)
    (tools : Option StageUpdate) (tcs : List ToolCall)
    (hlen : 1 ≤ tcs.length)
    (hok : ∀ tc ∈ tcs, (extractedQuery evalFn tc).isOk = true) :
    process_chunks evalFn (agentChunk (mkMessage (some tcs) content) tools)
        = (tcs.map (noticeOf evalFn), none)
      ∧ (tcs.map (noticeOf evalFn)).length = tcs.length
      ∧ (tcs.map (noticeOf evalFn)).countP isToolCallNotice = tcs.length
      ∧ (tcs.map (noticeOf evalFn)).countP isAgentAnswer = 0 := by
  refine ⟨?_, by simp, ?_, ?_⟩
  · have h := process_tool_calls_all_ok evalFn tcs hok
    simp [process_chunks, process_messages, process_message, agentChunk, mkMessage, h]
  · simp [List.countP_map, Function.comp, noticeOf, isToolCallNotice]
  · simp [List.countP_map, Function.comp, noticeOf, isAgentAnswer]

/-- Witness for C2 at two concrete search tool calls. -/
theorem tool_calls_render_notices_witness :
    process_chunks demoEval (agentChunk (mkMessage (some demoToolCalls) "") none)
        = (demoToolCalls.map (noticeOf demoEval), none)
      ∧ (demoToolCalls.map (noticeOf demoEval)).length = demoToolCalls.length
      ∧ (demoToolCalls.map (noticeOf demoEval)).countP isToolCallNotice = demoToolCalls.length
      ∧ (demoToolCalls.map (noticeOf demoEval)).countP isAgentAnswer = 0 :=
  tool_calls_render_notices demoEval "" none demoToolCalls (by decide) (by decide)

/-- C3: a chunk whose agent message has no `tool_calls` key in its
`additional_kwargs` renders exactly one final-answer line carrying the
message content, and no tool-call notice. -/
theorem no_tool_calls_renders_final_answer (evalFn : PyEval) (content : String)
    (tools : Option StageUpdate) :
    process_chunks evalFn (agentChunk (mkMessage none content) tools)
      = ([Line.agentAnswer content], none) := rfl

/-- C4: an input equal to `quit` after case lowering makes the console
loop print the farewell and stop: no input is handed to the agent runtime
(first component empty) and the remaining inputs are never read. -/
theorem quit_terminates_without_agent (turn : String → List Line)
    (user_question : String) (rest : List String)
    (h : pyLower user_question = "quit") :
    console_loop turn (user_question :: rest) = ([], [Line.farewell]) := by
  simp [console_loop, h]

/-- Witness for C4 at the input `QUIT`. -/
theorem quit_terminates_without_agent_witness :
    console_loop (fun _ => []) ["QUIT", "hello"] = ([], [Line.farewell]) :=
  quit_terminates_without_agent (fun _ => []) "QUIT" ["hello"] (by decide)

/-- C5: on a checkpoint list of length K the renderer prints exactly K
section headers, and the timestamp and identifier lines appear exactly
once per checkpoint, in the order the store returned the checkpoints. -/
theorem checkpoint_headers_in_order (checkpoints : List CheckpointTuple) :
    (process_checkpoints checkpoints).countP isCheckpointHeader = checkpoints.length
    ∧ (process_checkpoints checkpoints).filterMap tsOf
        = checkpoints.map (fun ct => ct.checkpoint.ts)
    ∧ (process_checkpoints checkpoints).filterMap idOf
        = checkpoints.map (fun ct => ct.checkpoint.id) := by
  refine ⟨?_, ?_, ?_⟩
  · show List.countP isCheckpointHeader
        (Line.separatorTop :: (checkpoints.map render_checkpoint).flatten
          ++ [Line.separatorBottom]) = checkpoints.length
    rw [List.countP_append, List.countP_cons, flatten_render_countP_header]
    simp [isCheckpointHeader]
  · show List.filterMap tsOf
        (Line.separatorTop :: (checkpoints.map render_checkpoint).flatten
          ++ [Line.separatorBottom]) = checkpoints.map (fun ct => ct.checkpoint.ts)
    rw [List.filterMap_append, List.filterMap_cons, flatten_render_tsOf]
    simp [tsOf]
  · show List.filterMap idOf
        (Line.separatorTop :: (checkpoints.map render_checkpoint).flatten
          ++ [Line.separatorBottom]) = checkpoints.map (fun ct => ct.checkpoint.id)
    rw [List.filterMap_append, List.filterMap_cons, flatten_render_idOf]
    simp [idOf]

/-- C6: in a rendered checkpoint, a `HumanMessage` produces exactly one
`User:` line with its content and identifier, an `AIMessage` exactly one
`Agent:` line, and a message of any other class produces no output line
at all — the full output equals the header followed by exactly the
per-role claimed lines, in message order. -/
theorem role_dispatch_lines (cts cid : String) (ms : List BaseMessage) :
    process_checkpoints [mkCheckpointTuple (some ms) cts cid]
      = [Line.separatorTop, Line.checkpointHeader, Line.timestamp cts, Line.checkpointId cid]
        ++ ms.filterMap claimedMsgLine ++ [Line.blank, Line.separatorBottom] := by
  simp [process_checkpoints, render_checkpoint, mkCheckpointTuple, msgSection_eq_claimed]

/-- C7: rendering a checkpoint list leaves the checkpoint data unchanged,
and rendering it a second time produces the identical output. -/
theorem checkpoint_rendering_idempotent (checkpoints : List CheckpointTuple) :
    (process_checkpoints_run (process_checkpoints_run checkpoints).2).1
        = (process_checkpoints_run checkpoints).1
    ∧ (process_checkpoints_run (process_checkpoints_run checkpoints).2).2 = checkpoints :=
  ⟨rfl, rfl⟩

/-- C8: a chunk not carrying the `"agent"` stage key produces no output
and no error, whatever other stage data it carries; `process_chunks` is a
pure function of its chunk argument, so no state survives a call. -/
theorem non_agent_chunk_no_output (evalFn : PyEval) (tools : Option StageUpdate) :
    process_chunks evalFn { agent := none, tools := tools } = ([], none) := rfl

/-- C9: an agent message whose `additional_kwargs` binds `tool_calls` to
the empty list takes the tool-call branch (key present) and iterates over
nothing: no tool-call notice and no final-answer line is emitted. -/
theorem empty_tool_calls_no_output (evalFn : PyEval) (content : String)
    (tools : Option StageUpdate) :
    process_chunks evalFn (agentChunk (mkMessage (some []) content) tools)
      = ([], none) := rfl

/-- C10: a checkpoint whose `channel_values` lacks the `messages` key is
still rendered — header, timestamp and identifier — with an empty message
section; the lookup defaults to the empty list and the (total) renderer
raises nothing. -/
theorem missing_messages_key_defaults (cts cid : String) :
    process_checkpoints [mkCheckpointTuple none cts cid]
      = [Line.separatorTop, Line.checkpointHeader, Line.timestamp cts, Line.checkpointId cid,
         Line.blank, Line.separatorBottom] := rfl
